import Mathlib

/-!
# Verification of the trip-planner pipeline (`src/main.py`)

Shallow embedding of the repository's Python code.  External HTTP calls
(`requests.get(...).json()`) are modelled by an environment `Env` that maps
each request to either a parsed JSON document or a raised Python exception;
all Python-level partial operations (dict lookup, list indexing, `in`,
`len`, iteration) are embedded as `Except PyExc`-valued functions, so every
exceptional control path of the source is visible in the model.
-/

/-- Parsed JSON documents, as returned by `requests.get(url).json()`.
Numeric leaves carry their Python-rendered decimal form: the source never
computes with a JSON number, it only interpolates it into strings. -/
inductive Json where
  | null : Json
  | bool (b : Bool) : Json
  | num (s : String) : Json
  | str (s : String) : Json
  | arr (elems : List Json) : Json
  | obj (fields : List (String × Json)) : Json

/-- Python exceptions that the embedded code can raise. `requestError`
covers network failures and malformed-JSON decode errors raised inside
`requests.get(url).json()`. -/
inductive PyExc where
  | keyError (key : String) : PyExc
  | indexError (msg : String) : PyExc
  | typeError (msg : String) : PyExc
  | requestError (msg : String) : PyExc
deriving DecidableEq

/-- Python `str(e)` on an exception, as interpolated by the two
`except` clauses of `src/main.py`. -/
def PyExc.msg : PyExc → String
  | .keyError k => "'" ++ k ++ "'"
  | .indexError m => m
  | .typeError m => m
  | .requestError m => m

/-- Python `str(x)` on a JSON value (used by f-string interpolation).
The rendering of composite values is abstracted to a fixed tag: the
source only ever interpolates leaves on live paths. -/
def pyStr : Json → String
  | .null => "None"
  | .bool true => "True"
  | .bool false => "False"
  | .num s => s
  | .str s => s
  | .arr _ => "<list>"
  | .obj _ => "<dict>"

/-- Python `sep.join(xs)`. -/
def pyJoin (sep : String) : List String → String
  | [] => ""
  | [x] => x
  | x :: xs => x ++ sep ++ pyJoin sep xs

/-- Python `s.upper()`. -/
def pyUpper (s : String) : String := String.mk (s.data.map Char.toUpper)

/-- Python `s.lower()`. -/
def pyLower (s : String) : String := String.mk (s.data.map Char.toLower)

/-- Character-level splitter behind `pySplit`; the result is never
empty (the empty input yields one empty piece, as in Python). -/
def splitCharAux (sep : Char) : List Char → List (List Char)
  | [] => [[]]
  | c :: cs =>
    match splitCharAux sep cs with
    | [] => [[]]
    | l :: ls => if c = sep then [] :: l :: ls else (c :: l) :: ls

/-- Python `s.split(sep)` for a one-character separator
(the source only splits on `"\n"`). -/
def pySplit (sep : Char) (s : String) : List String :=
  (splitCharAux sep s.data).map String.mk

/-- Python `d[k]` for a string key `k`: field lookup on a dict, `KeyError`
when the key is absent, `TypeError` on non-dict values. -/
def Json.getField : Json → String → Except PyExc Json
  | .obj fields, k =>
      match fields.find? (fun p => p.1 == k) with
      | some p => .ok p.2
      | none => .error (.keyError k)
  | _, _ => .error (.typeError "value is not subscriptable by string")

/-- Python `x[i]` for a non-negative integer index: list indexing with
`IndexError` out of range, single-character strings for string indexing,
`TypeError` otherwise. -/
def Json.getIdx : Json → Nat → Except PyExc Json
  | .arr elems, i =>
      match elems.get? i with
      | some e => .ok e
      | none => .error (.indexError "list index out of range")
  | .str s, i =>
      match s.data.get? i with
      | some c => .ok (.str (String.mk [c]))
      | none => .error (.indexError "string index out of range")
  | _, _ => .error (.typeError "value is not subscriptable by integer")

/-- Is a JSON value the string `k`?  Python `k == x` for a string `k`
is `False` on every non-string `x`. -/
def Json.isStrEq (k : String) : Json → Bool
  | .str s => s == k
  | _ => false

/-- Python `k in x` for a string `k`: key membership for dicts, element
equality for lists, substring test for strings, `TypeError` otherwise. -/
def jsonContains (j : Json) (k : String) : Except PyExc Bool :=
  match j with
  | .obj fields => .ok (fields.any (fun p => p.1 == k))
  | .arr elems => .ok (elems.any (Json.isStrEq k))
  | .str s => .ok (decide (k.data <:+: s.data))
  | _ => .error (.typeError "argument is not a container")

/-- Python `len(x)`. -/
def pyLen : Json → Except PyExc Nat
  | .arr elems => .ok elems.length
  | .str s => .ok s.length
  | .obj fields => .ok fields.length
  | _ => .error (.typeError "object has no len()")

/-- Query parameters of the Amadeus flight-offer search
(the `params` dict of `src/main.py` lines 59-65). -/
structure FlightParams where
  originLocationCode : String
  destinationLocationCode : String
  departureDate : String
  adults : Nat
  max : Nat
deriving DecidableEq

/-- One authenticated GET request to the flight-offer endpoint:
URL, `Authorization` header, query parameters. -/
structure FlightRequest where
  url : String
  authorization : String
  params : FlightParams
deriving DecidableEq

/-- The external world of one pipeline run: the behaviour of plain
HTTP GETs (geocoding, forecast) and of the authenticated flight GET,
each returning parsed JSON or raising; `departureDate` models
`(datetime.date.today() + datetime.timedelta(days=7)).isoformat()`. -/
structure Env where
  http_get : String → Except PyExc Json
  flight_get : FlightRequest → Except PyExc Json
  departureDate : String

/-- `"🌍 Weather info for {destination} not found."` -/
def weatherNotFound (destination : String) : String :=
  "🌍 Weather info for " ++ destination ++ " not found."

/-- One iteration of the forecast loop of `get_weather`
(`src/main.py` lines 31-35): reads `time[i]`, `temperature_2m_max[i]`,
`temperature_2m_min[i]` and formats `"{date}: {tmin}°C - {tmax}°C"`. -/
def tempLine (daily : Json) (i : Nat) : Except PyExc String := do
  let time ← daily.getField "time"
  let date ← time.getIdx i
  let tmaxArr ← daily.getField "temperature_2m_max"
  let tmax ← tmaxArr.getIdx i
  let tminArr ← daily.getField "temperature_2m_min"
  let tmin ← tminArr.getIdx i
  return pyStr date ++ ": " ++ pyStr tmin ++ "°C - " ++ pyStr tmax ++ "°C"

/-- The geocoding URL built by `get_weather` (`src/main.py` line 16). -/
def geoUrl (destination : String) : String :=
  "https://geocoding-api.open-meteo.com/v1/search?name=" ++
    destination ++ "&count=1"

/-- The `try` block of `get_weather` (`src/main.py` lines 14-37): any
raise propagates out as an `Except.error`. -/
def get_weather_body (env : Env) (destination : String) :
    Except PyExc String := do
  let geo_res ← env.http_get (geoUrl destination)
  let hasResults ← jsonContains geo_res "results"
  if !hasResults then
    return weatherNotFound destination
  let results ← geo_res.getField "results"
  let first ← results.getIdx 0
  let lat ← first.getField "latitude"
  let lon ← first.getField "longitude"
  let weather_url := "https://api.open-meteo.com/v1/forecast?latitude=" ++
    pyStr lat ++ "&longitude=" ++ pyStr lon ++
    "&daily=temperature_2m_max,temperature_2m_min,weathercode&forecast_days=3&timezone=auto"
  let weather_res ← env.http_get weather_url
  let daily ← weather_res.getField "daily"
  let time ← daily.getField "time"
  let n ← pyLen time
  let temps ← (List.range n).mapM (tempLine daily)
  return pyJoin " | " temps

/-- `get_weather` (`src/main.py` lines 12-40): the `try` body with its
`except Exception` clause, which converts any raise into the string
`"❌ Weather API error: {str(e)}"`. -/
def get_weather (env : Env) (destination : String) : Except PyExc String :=
  match get_weather_body env destination with
  | .ok s => .ok s
  | .error e => .ok ("❌ Weather API error: " ++ e.msg)

/-- Python truthiness of the optional `amadeus_api_key` argument:
`not amadeus_api_key` is true both for `None` and for the empty string. -/
def truthy : Option String → Bool
  | none => false
  | some s => !(s == "")

/-- The two fallback mock quotes of `get_flight_options`
(`src/main.py` lines 48-51). -/
def mockFlights (destination : String) : List String :=
  ["✈️ DEL → " ++ pyUpper destination ++ " : ₹4,500 (Mock)",
   "✈️ BOM → " ++ pyUpper destination ++ " : ₹5,200 (Mock)"]

/-- The authenticated request built by `get_flight_options`
(`src/main.py` lines 54-66): fixed URL, bearer header, and the `params`
dict with the hard-coded `"goa"`/`"GOI"`-else-`"KUU"` destination code. -/
def flightRequest (env : Env) (destination : String)
    (amadeus_api_key : String) : FlightRequest :=
  { url := "https://test.api.amadeus.com/v2/shopping/flight-offers"
    authorization := "Bearer " ++ amadeus_api_key
    params :=
      { originLocationCode := "DEL"
        destinationLocationCode :=
          if pyLower destination == "goa" then "GOI" else "KUU"
        departureDate := env.departureDate
        adults := 1
        max := 2 } }

/-- Python `for f in x` iteration: list elements, string characters,
dict keys; `TypeError` on non-iterables. -/
def pyIter : Json → Except PyExc (List Json)
  | .arr elems => .ok elems
  | .str s => .ok (s.data.map (fun c => Json.str (String.mk [c])))
  | .obj fields => .ok (fields.map (fun p => Json.str p.1))
  | _ => .error (.typeError "object is not iterable")

/-- One iteration of the offer loop of `get_flight_options`
(`src/main.py` lines 72-77): reads `price.total`, `itineraries[0]`,
`segments[0].departure.iataCode`, `segments[0].arrival.iataCode` and
formats `"✈️ {dep} → {arr} : ₹{price}"`. -/
def formatOffer (f : Json) : Except PyExc String := do
  let priceObj ← f.getField "price"
  let price ← priceObj.getField "total"
  let itineraries ← f.getField "itineraries"
  let itinerary ← itineraries.getIdx 0
  let segments ← itinerary.getField "segments"
  let seg ← segments.getIdx 0
  let depObj ← seg.getField "departure"
  let dep ← depObj.getField "iataCode"
  let arrObj ← seg.getField "arrival"
  let arr ← arrObj.getField "iataCode"
  return "✈️ " ++ pyStr dep ++ " → " ++ pyStr arr ++ " : ₹" ++ pyStr price

/-- The offer loop of `get_flight_options` (`src/main.py` lines 71-77):
each offer is formatted in order; the first raise aborts the loop and
propagates (the partially built `flights` list is discarded). -/
def formatOffers : List Json → Except PyExc (List String)
  | [] => .ok []
  | f :: fs => do
    let s ← formatOffer f
    let rest ← formatOffers fs
    return s :: rest

/-- The `try` block of `get_flight_options` (`src/main.py` lines 45-79).
The `amadeus_api_key.getD ""` in the authenticated branch is only reached
when the key is a truthy `some`. -/
def get_flight_options_body (env : Env) (destination : String)
    (amadeus_api_key : Option String) : Except PyExc (List String) := do
  if !truthy amadeus_api_key then
    return mockFlights destination
  let res ← env.flight_get
    (flightRequest env destination (amadeus_api_key.getD ""))
  let hasData ← jsonContains res "data"
  if !hasData then
    return ["No flights found."]
  let data ← res.getField "data"
  let offers ← pyIter data
  formatOffers offers

/-- `get_flight_options` (`src/main.py` lines 42-81): the `try` body with
its `except Exception` clause, which converts any raise into the
one-element list `["❌ Flight API error: {str(e)}"]`. -/
def get_flight_options (env : Env) (destination : String)
    (amadeus_api_key : Option String) : Except PyExc (List String) :=
  match get_flight_options_body env destination amadeus_api_key with
  | .ok l => .ok l
  | .error e => .ok ["❌ Flight API error: " ++ e.msg]

/-- `interests_text = ", ".join(interests) if interests else
"general sightseeing"` (`src/main.py` line 123). -/
def interestsText (interests : List String) : String :=
  if interests.isEmpty then "general sightseeing" else pyJoin ", " interests

/-- The two messages handed to `ChatPromptTemplate.from_messages`
(`src/main.py` lines 126-139). -/
structure ItineraryPrompt where
  system : String
  human : String

/-- The human-message f-string of the prompt (`src/main.py` lines
128-138), reproduced verbatim: it opens with a newline after the
triple quote and closes with a newline before it. -/
def userInstruction (days : Nat)
    (destination budget interests_text weather_info : String)
    (flight_info : List String) : String :=
  "\nPlan a " ++ toString days ++ "-day trip to " ++ destination ++
  ".\nBudget: " ++ budget ++
  ".\nTraveler interests: " ++ interests_text ++
  ".\n\nIMPORTANT:\n1. First, clearly display the WEATHER DATA provided: " ++
  weather_info ++
  ".\n2. Then, clearly display the FLIGHT OPTIONS provided: " ++
  pyJoin ", " flight_info ++
  ".\n3. After that, suggest a day-by-day itinerary (activities, attractions, food, culture).\nMake sure weather and flight info are visible in the final answer.\n"

/-- The assembled prompt (`src/main.py` lines 126-139). -/
def prompt (days : Nat)
    (destination budget interests_text weather_info : String)
    (flight_info : List String) : ItineraryPrompt :=
  { system := "You are a helpful AI travel planner."
    human := userInstruction days destination budget interests_text
      weather_info flight_info }

/-- `needle` occurs verbatim as a contiguous substring of `hay`. -/
def strContains (hay needle : String) : Prop :=
  needle.data <:+: hay.data

instance (hay needle : String) : Decidable (strContains hay needle) :=
  List.decidableInfix needle.data hay.data

/-! ## The PDF canvas (`create_pdf`, `src/main.py` lines 160-177)

The `reportlab` canvas is embedded as an explicit state machine recording
exactly the calls the source makes: the pages completed so far (each a
list of `drawString` records), the records of the still-open page, and
the current font.  The byte serialization performed by `pdf.save()` /
`buffer` is a function of this finished document, so document equality
is the model-level meaning of byte-for-byte buffer equality. -/

/-- US-Letter page size in points (`reportlab.lib.pagesizes.letter`);
both coordinates are whole numbers of points. -/
def letterWidth : Int := 612

/-- US-Letter page height in points. -/
def letterHeight : Int := 792

/-- One `drawString(x, y, line)` record. -/
structure DrawRecord where
  x : Int
  y : Int
  text : String
deriving DecidableEq

/-- The canvas state: completed pages, the open page, the current font
(`none` before any `setFont`, as after a page break). -/
structure Canvas where
  pages : List (List DrawRecord)
  cur : List DrawRecord
  font : Option (String × Nat)
deriving DecidableEq

/-- A freshly constructed `canvas.Canvas(buffer, pagesize=letter)`. -/
def Canvas.init : Canvas := { pages := [], cur := [], font := none }

/-- `pdf.setFont(name, size)`. -/
def Canvas.setFont (c : Canvas) (name : String) (size : Nat) : Canvas :=
  { c with font := some (name, size) }

/-- `pdf.drawString(x, y, line)`. -/
def Canvas.drawString (c : Canvas) (x y : Int) (line : String) : Canvas :=
  { c with cur := c.cur ++ [⟨x, y, line⟩] }

/-- `pdf.showPage()`: closes the open page and resets graphics state. -/
def Canvas.showPage (c : Canvas) : Canvas :=
  { pages := c.pages ++ [c.cur], cur := [], font := none }

/-- `pdf.save()`: flushes the open page if it has pending content, then
serializes the document. -/
def Canvas.save (c : Canvas) : Canvas :=
  if c.cur.isEmpty then c else c.showPage

/-- The `for line in text.split("\n")` loop of `create_pdf`
(`src/main.py` lines 167-173): draw at `(50, y)`, step `y` down by 20,
and on `y < 50` start a new page with the font re-set and `y` reset to
`height - 50`. -/
def drawLines : List String → Canvas → Int → Canvas
  | [], pdf, _ => pdf
  | line :: rest, pdf, y =>
    if y - 20 < 50 then
      drawLines rest
        (((pdf.drawString 50 y line).showPage).setFont "Helvetica" 12)
        (letterHeight - 50)
    else
      drawLines rest (pdf.drawString 50 y line) (y - 20)

/-- `create_pdf(text)` (`src/main.py` lines 160-177): the finished
document whose serialization fills the returned buffer. -/
def create_pdf (text : String) : Canvas :=
  (drawLines (pySplit '\n' text) (Canvas.init.setFont "Helvetica" 12)
    (letterHeight - 50)).save

/-- The drawing loop as a small-step run relation: one constructor per
control path of the loop body.  `create_pdf` is its deterministic
realization (`drawLines_run`). -/
inductive DrawSteps : List String → Canvas → Int → Canvas → Prop where
  | nil (pdf : Canvas) (y : Int) : DrawSteps [] pdf y pdf
  | page (line : String) (rest : List String) (pdf : Canvas) (y : Int)
      (out : Canvas) (hy : y - 20 < 50)
      (h : DrawSteps rest
        (((pdf.drawString 50 y line).showPage).setFont "Helvetica" 12)
        (letterHeight - 50) out) :
      DrawSteps (line :: rest) pdf y out
  | stay (line : String) (rest : List String) (pdf : Canvas) (y : Int)
      (out : Canvas) (hy : ¬ y - 20 < 50)
      (h : DrawSteps rest (pdf.drawString 50 y line) (y - 20) out) :
      DrawSteps (line :: rest) pdf y out

/-- One complete run of `create_pdf` on `text`, ending in the document
`out`: the loop is run from the initial canvas and the final canvas is
flushed by `save`. -/
def RenderRun (text : String) (out : Canvas) : Prop :=
  ∃ c, DrawSteps (pySplit '\n' text)
    (Canvas.init.setFont "Helvetica" 12) (letterHeight - 50) c ∧
    out = c.save

/-! ## Substring helpers -/

theorem strContains_self (s : String) : strContains s s :=
  ⟨[], [], by simp⟩

theorem strContains.appL {h n : String} (hc : strContains h n)
    (s : String) : strContains (h ++ s) n := by
  obtain ⟨a, b, hab⟩ := hc
  exact ⟨a, b ++ s.data, by rw [String.data_append, ← hab]; simp⟩

theorem strContains.appR {h n : String} (hc : strContains h n)
    (s : String) : strContains (s ++ h) n := by
  obtain ⟨a, b, hab⟩ := hc
  exact ⟨s.data ++ a, b, by rw [String.data_append, ← hab]; simp⟩

theorem pyJoin_contains (sep : String) (l : List String) (f : String)
    (h : f ∈ l) : strContains (pyJoin sep l) f := by
  induction l with
  | nil => cases h
  | cons x xs ih =>
    cases xs with
    | nil =>
      obtain rfl := List.mem_singleton.mp h
      exact strContains_self f
    | cons y t =>
      cases h with
      | head => exact ((strContains_self f).appL sep).appL (pyJoin sep (y :: t))
      | tail _ hmem => exact (ih hmem).appR (x ++ sep)

/-! ## Reduction lemmas for the `Except` monad -/

theorem except_bind_ok {ε α β : Type} (a : α) (f : α → Except ε β) :
    (Except.ok a : Except ε α) >>= f = f a := rfl

theorem except_bind_error {ε α β : Type} (e : ε) (f : α → Except ε β) :
    (Except.error e : Except ε α) >>= f = Except.error e := rfl

theorem except_pure {ε α : Type} (a : α) :
    (pure a : Except ε α) = Except.ok a := rfl

/-! ## Concrete environments used to instantiate the theorems -/

/-- A world in which every network request raises. -/
def envDown : Env :=
  { http_get := fun _ => .error (.requestError "connection refused")
    flight_get := fun _ => .error (.requestError "connection refused")
    departureDate := "2026-10-19" }

/-- A world whose flight-offer response is `{"data": []}`:
a well-formed response containing zero offers. -/
def envEmptyData : Env :=
  { http_get := fun _ => .error (.requestError "offline")
    flight_get := fun _ => .ok (Json.obj [("data", Json.arr [])])
    departureDate := "2026-10-19" }

/-- A world whose flight-offer response has no `"data"` field. -/
def envNoData : Env :=
  { http_get := fun _ => .error (.requestError "offline")
    flight_get := fun _ => .ok (Json.obj [("meta", Json.null)])
    departureDate := "2026-10-19" }

/-- A well-formed Amadeus offer with the given departure and arrival
codes and total price. -/
def sampleOffer (dep arr price : String) : Json :=
  Json.obj [("price", Json.obj [("total", Json.str price)]),
            ("itineraries", Json.arr [Json.obj [("segments", Json.arr [
              Json.obj [("departure", Json.obj [("iataCode", Json.str dep)]),
                        ("arrival", Json.obj [("iataCode", Json.str arr)])]])]])]

/-- A world whose flight-offer response carries three offers (more than
the requested `max=2`, as an upstream server is free to do). -/
def envThreeOffers : Env :=
  { http_get := fun _ => .error (.requestError "offline")
    flight_get := fun _ => .ok (Json.obj [("data", Json.arr
      [sampleOffer "DEL" "GOI" "5400.00", sampleOffer "BOM" "GOI" "6100.50",
       sampleOffer "DEL" "KUU" "7000.25"])])
    departureDate := "2026-10-19" }

/-- A world whose geocoding response for `"Atlantis"` is a well-formed
JSON object with no `"results"` field (no geocoding match). -/
def envNoGeoMatch : Env :=
  { http_get := fun url =>
      if url = geoUrl "Atlantis" then
        .ok (Json.obj [("generationtime_ms", Json.num "0.53")])
      else .error (.requestError "offline")
    flight_get := fun _ => .error (.requestError "offline")
    departureDate := "2026-10-19" }

/-! ## Claims -/

/-- C5: for every destination, with no flight credential
`get_flight_options` returns exactly the two mock quote strings — fixed
origin codes `DEL`/`BOM`, fixed prices `₹4,500`/`₹5,200`, each
containing the uppercased destination and the literal `"(Mock)"` — and
the result does not depend on the external world. -/
theorem mock_flights_no_credential (env env' : Env) (destination : String) :
    get_flight_options env destination none =
      .ok ["✈️ DEL → " ++ pyUpper destination ++ " : ₹4,500 (Mock)",
           "✈️ BOM → " ++ pyUpper destination ++ " : ₹5,200 (Mock)"] ∧
    strContains ("✈️ DEL → " ++ pyUpper destination ++ " : ₹4,500 (Mock)")
      (pyUpper destination) ∧
    strContains ("✈️ DEL → " ++ pyUpper destination ++ " : ₹4,500 (Mock)")
      "(Mock)" ∧
    strContains ("✈️ BOM → " ++ pyUpper destination ++ " : ₹5,200 (Mock)")
      (pyUpper destination) ∧
    strContains ("✈️ BOM → " ++ pyUpper destination ++ " : ₹5,200 (Mock)")
      "(Mock)" ∧
    get_flight_options env destination none =
      get_flight_options env' destination none := by
  refine ⟨rfl, ?_, ?_, ?_, ?_, rfl⟩
  · exact ((strContains_self (pyUpper destination)).appR _).appL _
  · exact (show strContains " : ₹4,500 (Mock)" "(Mock)" by decide).appR _
  · exact ((strContains_self (pyUpper destination)).appR _).appL _
  · exact (show strContains " : ₹5,200 (Mock)" "(Mock)" by decide).appR _

/-- C9: an empty-string credential is falsy in Python, so
`get_flight_options` behaves exactly as with no credential: the two mock
quotes come back and the external world is never consulted. -/
theorem empty_credential_is_mock (env env' : Env) (destination : String) :
    get_flight_options env destination (some "") =
      get_flight_options env' destination none ∧
    get_flight_options env destination (some "") =
      .ok (mockFlights destination) :=
  ⟨rfl, rfl⟩

/-- C8: the `destinationLocationCode` query parameter of the
authenticated flight-offer request is `"GOI"` exactly when the
destination lowercases to `"goa"`, and the fixed fallback `"KUU"`
for every other destination. -/
theorem flight_destination_code (env : Env) (destination key : String) :
    ((flightRequest env destination key).params.destinationLocationCode =
      if pyLower destination == "goa" then "GOI" else "KUU") ∧
    (pyLower destination = "goa" →
      (flightRequest env destination key).params.destinationLocationCode =
        "GOI") ∧
    (pyLower destination ≠ "goa" →
      (flightRequest env destination key).params.destinationLocationCode =
        "KUU") := by
  refine ⟨rfl, ?_, ?_⟩
  · intro h
    simp [flightRequest, h]
  · intro h
    simp [flightRequest, h]

/-- Witness for C8 at the two scenario inputs of the spec:
`"Goa"` maps to `"GOI"` and `"manali"` maps to `"KUU"`. -/
theorem flight_destination_code_witness :
    (flightRequest envDown "Goa" "k").params.destinationLocationCode =
      "GOI" ∧
    (flightRequest envDown "manali" "k").params.destinationLocationCode =
      "KUU" :=
  ⟨(flight_destination_code envDown "Goa" "k").2.1 (by decide),
   (flight_destination_code envDown "manali" "k").2.2 (by decide)⟩

/-- C1: whatever the external HTTP layer does — network failures,
malformed JSON, missing fields, wrong shapes — `get_weather` and
`get_flight_options` return normally; when their `try` body raises,
the handler yields the descriptive error string, respectively the
one-element descriptive error list. -/
theorem tools_never_raise (env : Env) (destination : String)
    (key : Option String) :
    (∃ s, get_weather env destination = .ok s) ∧
    (∃ l, get_flight_options env destination key = .ok l) ∧
    (∀ e, get_weather_body env destination = .error e →
      get_weather env destination =
        .ok ("❌ Weather API error: " ++ e.msg)) ∧
    (∀ e, get_flight_options_body env destination key = .error e →
      get_flight_options env destination key =
        .ok ["❌ Flight API error: " ++ e.msg]) := by
  refine ⟨?_, ?_, ?_, ?_⟩
  · cases hb : get_weather_body env destination with
    | ok s => exact ⟨s, by simp [get_weather, hb]⟩
    | error e =>
      exact ⟨"❌ Weather API error: " ++ e.msg, by simp [get_weather, hb]⟩
  · cases hb : get_flight_options_body env destination key with
    | ok l => exact ⟨l, by simp [get_flight_options, hb]⟩
    | error e =>
      exact ⟨["❌ Flight API error: " ++ e.msg],
        by simp [get_flight_options, hb]⟩
  · intro e he
    simp [get_weather, he]
  · intro e he
    simp [get_flight_options, he]

/-- Witness for C1 in a world where every request raises: both tools
degrade to their descriptive error values. -/
theorem tools_never_raise_witness :
    get_weather envDown "Manali" =
      .ok "❌ Weather API error: connection refused" ∧
    get_flight_options envDown "Manali" (some "secret") =
      .ok ["❌ Flight API error: connection refused"] :=
  ⟨(tools_never_raise envDown "Manali" (some "secret")).2.2.1
    (.requestError "connection refused") rfl,
   (tools_never_raise envDown "Manali" (some "secret")).2.2.2
    (.requestError "connection refused") rfl⟩

/-- C4: when the geocoding lookup returns a response without a
`"results"` field, `get_weather` returns (rather than raises) the
not-found string, which contains the literal destination name. -/
theorem weather_no_geocoding_match (env : Env) (destination : String)
    (geo : Json)
    (hgeo : env.http_get (geoUrl destination) = .ok geo)
    (hnores : jsonContains geo "results" = .ok false) :
    get_weather env destination = .ok (weatherNotFound destination) ∧
    strContains (weatherNotFound destination) destination := by
  constructor
  · have hb : get_weather_body env destination =
        .ok (weatherNotFound destination) := by
      unfold get_weather_body
      rw [hgeo, except_bind_ok, hnores, except_bind_ok]
      rfl
    simp [get_weather, hb]
  · exact ((strContains_self destination).appR _).appL _

/-- Witness for C4: the unmatched destination `"Atlantis"`. -/
theorem weather_no_geocoding_match_witness :
    get_weather envNoGeoMatch "Atlantis" =
      .ok (weatherNotFound "Atlantis") ∧
    strContains (weatherNotFound "Atlantis") "Atlantis" :=
  weather_no_geocoding_match envNoGeoMatch "Atlantis"
    (Json.obj [("generationtime_ms", Json.num "0.53")]) rfl rfl

/-- C3 counterexample: a credentialed call whose flight-offer response
is `{"data": []}` — a response containing no offers — returns the EMPTY
list, not a one-element sequence: the `"No flights found."` branch only
fires when the `"data"` key is absent, and the offer loop over an empty
array yields `[]`. -/
theorem flights_empty_data_counterexample :
    get_flight_options envEmptyData "goa" (some "key") =
      .ok ([] : List String) := rfl

/-- C3 amended: for every credentialed call, if the response lacks the
`"data"` key the result is the one-element `["No flights found."]`, and
if the request raises the result is the one-element descriptive error
list; a well-formed response whose `"data"` array is empty instead
yields the empty list. -/
theorem flights_no_offers_one_element (env : Env) (destination : String)
    (key : Option String) (hkey : truthy key = true) :
    (∀ res, env.flight_get
        (flightRequest env destination (key.getD "")) = .ok res →
      jsonContains res "data" = .ok false →
      get_flight_options env destination key =
        .ok ["No flights found."]) ∧
    (∀ e, env.flight_get
        (flightRequest env destination (key.getD "")) = .error e →
      get_flight_options env destination key =
        .ok ["❌ Flight API error: " ++ e.msg]) ∧
    (∀ res, env.flight_get
        (flightRequest env destination (key.getD "")) = .ok res →
      res.getField "data" = .ok (Json.arr []) →
      jsonContains res "data" = .ok true →
      get_flight_options env destination key = .ok ([] : List String)) := by
  refine ⟨?_, ?_, ?_⟩
  · intro res hres hnodata
    have hb : get_flight_options_body env destination key =
        .ok ["No flights found."] := by
      unfold get_flight_options_body
      rw [hkey]
      simp only [Bool.not_true, Bool.false_eq_true, if_false]
      rw [hres, except_bind_ok, hnodata, except_bind_ok]
      rfl
    simp [get_flight_options, hb]
  · intro e he
    have hb : get_flight_options_body env destination key =
        .error e := by
      unfold get_flight_options_body
      rw [hkey]
      simp only [Bool.not_true, Bool.false_eq_true, if_false]
      rw [he, except_bind_error]
      rfl
    simp [get_flight_options, hb]
  · intro res hres hdata hhas
    have hb : get_flight_options_body env destination key =
        .ok ([] : List String) := by
      unfold get_flight_options_body
      rw [hkey]
      simp only [Bool.not_true, Bool.false_eq_true, if_false]
      rw [hres, except_bind_ok, hhas, except_bind_ok]
      simp only [Bool.not_true, Bool.false_eq_true, if_false]
      rw [hdata, except_bind_ok]
      rfl
    simp [get_flight_options, hb]

/-- Witness for the amended C3: the missing-`"data"` world and the
raising world both produce their one-element results. -/
theorem flights_no_offers_one_element_witness :
    get_flight_options envNoData "goa" (some "key") =
      .ok ["No flights found."] ∧
    get_flight_options envDown "goa" (some "key") =
      .ok ["❌ Flight API error: connection refused"] :=
  ⟨(flights_no_offers_one_element envNoData "goa" (some "key") rfl).1
    (Json.obj [("meta", Json.null)]) rfl rfl,
   (flights_no_offers_one_element envDown "goa" (some "key") rfl).2.1
    (.requestError "connection refused") rfl⟩

/-- Helper: the offer loop formats exactly one string per offer. -/
theorem formatOffers_length :
    ∀ (l : List Json) (out : List String),
      formatOffers l = .ok out → out.length = l.length := by
  intro l
  induction l with
  | nil =>
    intro out h
    simp only [formatOffers] at h
    cases h
    rfl
  | cons f fs ih =>
    intro out h
    simp only [formatOffers] at h
    cases hf : formatOffer f with
    | error e => rw [hf, except_bind_error] at h; cases h
    | ok s =>
      rw [hf, except_bind_ok] at h
      cases hr : formatOffers fs with
      | error e => rw [hr, except_bind_error] at h; cases h
      | ok rest =>
        rw [hr, except_bind_ok, except_pure] at h
        cases h
        simp [ih rest hr]

/-- C10: for a credentialed call whose response carries a `"data"` array
of offers, every offer the loop can format yields exactly one quote
string, in array order, with no truncation by the code itself — the
`max=2` cap lives only in the request parameter. -/
theorem flights_one_string_per_offer (env : Env) (destination : String)
    (key : Option String) (res : Json) (offers : List Json)
    (strs : List String)
    (hkey : truthy key = true)
    (hres : env.flight_get
      (flightRequest env destination (key.getD "")) = .ok res)
    (hhas : jsonContains res "data" = .ok true)
    (hdata : res.getField "data" = .ok (Json.arr offers))
    (hfmt : formatOffers offers = .ok strs) :
    get_flight_options env destination key = .ok strs ∧
    strs.length = offers.length ∧
    (flightRequest env destination (key.getD "")).params.max = 2 := by
  refine ⟨?_, formatOffers_length offers strs hfmt, rfl⟩
  have hb : get_flight_options_body env destination key = .ok strs := by
    unfold get_flight_options_body
    rw [hkey]
    simp only [Bool.not_true, Bool.false_eq_true, if_false]
    rw [hres, except_bind_ok, hhas, except_bind_ok]
    simp only [Bool.not_true, Bool.false_eq_true, if_false]
    rw [hdata, except_bind_ok]
    show formatOffers offers = .ok strs
    exact hfmt
  simp [get_flight_options, hb]

/-- Witness for C10: a response carrying three offers (one more than the
requested cap) produces exactly three quote strings. -/
theorem flights_one_string_per_offer_witness :
    get_flight_options envThreeOffers "goa" (some "key") =
      .ok ["✈️ DEL → GOI : ₹5400.00", "✈️ BOM → GOI : ₹6100.50",
           "✈️ DEL → KUU : ₹7000.25"] ∧
    (["✈️ DEL → GOI : ₹5400.00", "✈️ BOM → GOI : ₹6100.50",
      "✈️ DEL → KUU : ₹7000.25"] : List String).length =
      ([sampleOffer "DEL" "GOI" "5400.00", sampleOffer "BOM" "GOI" "6100.50",
        sampleOffer "DEL" "KUU" "7000.25"] : List Json).length ∧
    (flightRequest envThreeOffers "goa" ((some "key").getD "")).params.max =
      2 :=
  flights_one_string_per_offer envThreeOffers "goa" (some "key")
    (Json.obj [("data", Json.arr
      [sampleOffer "DEL" "GOI" "5400.00", sampleOffer "BOM" "GOI" "6100.50",
       sampleOffer "DEL" "KUU" "7000.25"])])
    [sampleOffer "DEL" "GOI" "5400.00", sampleOffer "BOM" "GOI" "6100.50",
     sampleOffer "DEL" "KUU" "7000.25"]
    ["✈️ DEL → GOI : ₹5400.00", "✈️ BOM → GOI : ₹6100.50",
     "✈️ DEL → KUU : ₹7000.25"]
    rfl rfl rfl rfl rfl

/-- C6: the assembled user instruction embeds the weather summary string
verbatim as a substring, and every flight string verbatim as a substring
(each flight string is a contiguous piece of the `", "`-join embedded in
the instruction). -/
theorem prompt_embeds_tool_data (days : Nat)
    (destination budget interests_text weather_info : String)
    (flight_info : List String) :
    strContains (prompt days destination budget interests_text
      weather_info flight_info).human weather_info ∧
    ∀ f, f ∈ flight_info →
      strContains (prompt days destination budget interests_text
        weather_info flight_info).human f := by
  constructor
  · exact ((((strContains_self weather_info).appR _).appL _).appL _).appL _
  · intro f hf
    exact ((pyJoin_contains ", " flight_info f hf).appR _).appL _

/-- Witness for C6 on concrete pipeline data: the weather summary and
the second mock flight string appear verbatim in the instruction. -/
theorem prompt_embeds_tool_data_witness :
    strContains (prompt 3 "Goa" "Medium" "Nature, Adventure"
      "2026-10-12: 21.0°C - 29.5°C"
      ["✈️ DEL → GOA : ₹4,500 (Mock)", "✈️ BOM → GOA : ₹5,200 (Mock)"]).human
      "2026-10-12: 21.0°C - 29.5°C" ∧
    strContains (prompt 3 "Goa" "Medium" "Nature, Adventure"
      "2026-10-12: 21.0°C - 29.5°C"
      ["✈️ DEL → GOA : ₹4,500 (Mock)", "✈️ BOM → GOA : ₹5,200 (Mock)"]).human
      "✈️ BOM → GOA : ₹5,200 (Mock)" :=
  ⟨(prompt_embeds_tool_data 3 "Goa" "Medium" "Nature, Adventure"
      "2026-10-12: 21.0°C - 29.5°C"
      ["✈️ DEL → GOA : ₹4,500 (Mock)", "✈️ BOM → GOA : ₹5,200 (Mock)"]).1,
   (prompt_embeds_tool_data 3 "Goa" "Medium" "Nature, Adventure"
      "2026-10-12: 21.0°C - 29.5°C"
      ["✈️ DEL → GOA : ₹4,500 (Mock)", "✈️ BOM → GOA : ₹5,200 (Mock)"]).2
      "✈️ BOM → GOA : ₹5,200 (Mock)" (by decide)⟩

/-- Helper: the drawing loop realizes the run relation. -/
theorem drawLines_steps : ∀ (ls : List String) (pdf : Canvas) (y : Int),
    DrawSteps ls pdf y (drawLines ls pdf y) := by
  intro ls
  induction ls with
  | nil => intro pdf y; exact DrawSteps.nil pdf y
  | cons line rest ih =>
    intro pdf y
    by_cases hy : y - 20 < 50
    · have heq : drawLines (line :: rest) pdf y =
          drawLines rest
            (((pdf.drawString 50 y line).showPage).setFont "Helvetica" 12)
            (letterHeight - 50) := by
        simp [drawLines, hy]
      rw [heq]
      exact DrawSteps.page line rest pdf y _ hy (ih _ _)
    · have heq : drawLines (line :: rest) pdf y =
          drawLines rest (pdf.drawString 50 y line) (y - 20) := by
        simp [drawLines, hy]
      rw [heq]
      exact DrawSteps.stay line rest pdf y _ hy (ih _ _)

/-- Helper: the run relation is a partial function of its input. -/
theorem drawSteps_deterministic {ls : List String} {pdf : Canvas}
    {y : Int} {out1 : Canvas} (h1 : DrawSteps ls pdf y out1) :
    ∀ {out2 : Canvas}, DrawSteps ls pdf y out2 → out1 = out2 := by
  induction h1 with
  | nil pdf y =>
    intro out2 h2
    cases h2
    rfl
  | page line rest pdf y out hy h ih =>
    intro out2 h2
    cases h2 with
    | page _ _ _ _ _ hy2 h2' => exact ih h2'
    | stay _ _ _ _ _ hy2 h2' => exact absurd hy hy2
  | stay line rest pdf y out hy h ih =>
    intro out2 h2
    cases h2 with
    | page _ _ _ _ _ hy2 h2' => exact absurd hy2 hy
    | stay _ _ _ _ _ hy2 h2' => exact ih h2'

/-- Helper: `create_pdf text` is the document of a run on `text`. -/
theorem create_pdf_realizes (text : String) :
    RenderRun text (create_pdf text) :=
  ⟨drawLines (pySplit '\n' text) (Canvas.init.setFont "Helvetica" 12)
      (letterHeight - 50),
   drawLines_steps _ _ _, rfl⟩

/-- C2: `create_pdf` is deterministic — any two runs on the identical
input text finish with the identical document, page for page and record
for record; the byte serialization the library performs on the finished
document is a function of it, so the two returned buffers are
byte-for-byte identical. -/
theorem create_pdf_two_run_deterministic (text : String)
    (out1 out2 : Canvas)
    (h1 : RenderRun text out1) (h2 : RenderRun text out2) :
    out1 = out2 := by
  obtain ⟨c1, hc1, rfl⟩ := h1
  obtain ⟨c2, hc2, rfl⟩ := h2
  rw [drawSteps_deterministic hc1 hc2]

/-- Witness for C2: two runs on a concrete two-line itinerary agree. -/
theorem create_pdf_two_run_deterministic_witness :
    create_pdf "Day 1: Beach\nDay 2: Fort" =
      create_pdf "Day 1: Beach\nDay 2: Fort" :=
  create_pdf_two_run_deterministic "Day 1: Beach\nDay 2: Fort"
    (create_pdf "Day 1: Beach\nDay 2: Fort")
    (create_pdf "Day 1: Beach\nDay 2: Fort")
    (create_pdf_realizes "Day 1: Beach\nDay 2: Fort")
    (create_pdf_realizes "Day 1: Beach\nDay 2: Fort")

/-- Pagination arithmetic of the drawing loop: given a number of lines
still to draw, the current cursor, and the record count of the open
page, returns how many pages the loop completes and the record count of
the page left open. -/
def pageSpec : Nat → Int → Nat → Nat × Nat
  | 0, _, k => (0, k)
  | n + 1, y, k =>
    if y - 20 < 50 then
      ((pageSpec n (letterHeight - 50) 0).1 + 1,
       (pageSpec n (letterHeight - 50) 0).2)
    else
      pageSpec n (y - 20) (k + 1)

/-- Helper: the drawing loop completes and leaves open exactly the pages
`pageSpec` counts. -/
theorem drawLines_page_count :
    ∀ (ls : List String) (pdf : Canvas) (y : Int),
      (drawLines ls pdf y).pages.length =
        pdf.pages.length + (pageSpec ls.length y pdf.cur.length).1 ∧
      (drawLines ls pdf y).cur.length =
        (pageSpec ls.length y pdf.cur.length).2 := by
  intro ls
  induction ls with
  | nil =>
    intro pdf y
    simp [drawLines, pageSpec]
  | cons line rest ih =>
    intro pdf y
    by_cases hy : y - 20 < 50
    · have h1 := ih (((pdf.drawString 50 y line).showPage).setFont
        "Helvetica" 12) (letterHeight - 50)
      simp only [drawLines, hy, if_true, List.length_cons, pageSpec,
        Canvas.drawString, Canvas.showPage, Canvas.setFont,
        List.length_append, List.length_nil] at h1 ⊢
      omega
    · have h1 := ih (pdf.drawString 50 y line) (y - 20)
      simp only [drawLines, hy, if_false, List.length_cons, pageSpec,
        Canvas.drawString, List.length_append, List.length_nil,
        List.length_singleton, Nat.zero_add] at h1 ⊢
      omega

set_option maxRecDepth 10000 in
/-- C7: any text that splits into exactly 60 newline-separated lines
renders to a document of exactly 2 pages under the fixed geometry
(US-Letter height 792, top start at 742, pitch 20, page break below
50): the first page takes 35 lines, the second the remaining 25. -/
theorem create_pdf_sixty_lines_two_pages (text : String)
    (h : (pySplit '\n' text).length = 60) :
    (create_pdf text).pages.length = 2 := by
  obtain ⟨hpages, hcur⟩ := drawLines_page_count (pySplit '\n' text)
    (Canvas.init.setFont "Helvetica" 12) (letterHeight - 50)
  rw [h] at hpages hcur
  have hspec : pageSpec 60 (letterHeight - 50)
      ((Canvas.init.setFont "Helvetica" 12).cur.length) = (1, 25) := by
    decide
  rw [hspec] at hpages hcur
  have hinit : (Canvas.init.setFont "Helvetica" 12).pages.length = 0 := rfl
  rw [hinit] at hpages
  unfold create_pdf Canvas.save
  have hne : (drawLines (pySplit '\n' text)
      (Canvas.init.setFont "Helvetica" 12)
      (letterHeight - 50)).cur.isEmpty = false := by
    rcases hc : (drawLines (pySplit '\n' text)
        (Canvas.init.setFont "Helvetica" 12)
        (letterHeight - 50)).cur with _ | ⟨r, rs⟩
    · rw [hc] at hcur
      simp at hcur
    · rfl
  rw [hne]
  simp only [Bool.false_eq_true, if_false, Canvas.showPage,
    List.length_append, List.length_singleton]
  omega

set_option maxRecDepth 10000 in
/-- Witness for C7: sixty copies of a short line joined by newlines. -/
theorem create_pdf_sixty_lines_two_pages_witness :
    (create_pdf (pyJoin "\n" (List.replicate 60 "Day"))).pages.length =
      2 :=
  create_pdf_sixty_lines_two_pages (pyJoin "\n" (List.replicate 60 "Day"))
    (by decide)
